import Mathlib

/-!
Verification development for the CP2K easyblock
(`easybuild/easyblocks/c/cp2k.py`, Python 2).

The file shallowly embeds the two decision-logic cores of the easyblock:

* the configuration synthesizer (`configure_step` and the helper
  `configure_*` methods), which merges compiler-family and
  library-availability option fragments into a flat `options` dictionary
  and serializes it as a Makefile (`_generate_makefile`); and
* the regression-report analyzer inside `test_step` (the nested
  `test_report` closure), which turns extracted test counts into
  accept/warn/fatal outcomes.

Python strings are embedded as `List Char`; Python 2 integers are `Nat`
(all quantities involved are non-negative); Python 2 integer division
`a / b` is `Nat` floor division with an explicit crash outcome for a
zero divisor; fallible code returns `Except` (in the 2015-era EasyBuild
framework `self.log.error` raises, so it is modelled as an `Except.error`
result — the spec's `ConfigError`/`AnalysisError`).
-/

namespace CP2K

/-- Python string literal as a character list. -/
def str (s : String) : List Char := s.data

/-- Decimal digit character. -/
def digitChar (d : Nat) : Char := Char.ofNat (48 + d)

/-- Helper for `natChars`, structural on a fuel argument. -/
def natCharsAux : Nat → Nat → List Char → List Char
  | 0, _, acc => acc
  | fuel+1, n, acc =>
    if n < 10 then digitChar n :: acc
    else natCharsAux fuel (n / 10) (digitChar (n % 10) :: acc)

/-- Decimal rendering of a natural number (Python `str(n)` for `n ≥ 0`). -/
def natChars (n : Nat) : List Char := natCharsAux (n + 1) n []

/-! ## Regression report analyzer (`test_step` / nested `test_report`)

`test_report` in the source reads, for a category name (`"FAILED"`,
`"WRONG"`, `"NEW"`, `"CORRECT"`), the count extracted from the regtest
output by the regex `number\s+of\s+<category>\s+tests\s+(?P<cnt>[0-9]+)`,
and the total count `tot_cnt` extracted with the empty category.  The
embedding takes the extraction results directly: `found = none` models
"regex did not match" (the source then calls `self.log.error`, which
raises), `found = some cnt` models a matched count.

The rejection condition in the source is

  `(test_result == "FAILED" and cnt > 0) or
   (test_result == "WRONG" and (cnt / tot_cnt) > 0.1)`

where `cnt / tot_cnt` is Python 2 *integer* division of two `int`s.
The comparison of that integer with the float literal `0.1` is exact for
integers; it is embedded by cross-multiplying with the denominator
(`k > 1/10 ↔ 10 * k > 1`; the float `0.1` lies strictly between the
rationals `0` and `1`, so the integer comparison agrees with the exact
one).  A zero `tot_cnt` makes the
division raise `ZeroDivisionError`; the embedding makes that an explicit
`zeroDiv` outcome. -/

/-- Outcome of one `test_report` call: `fatal` models `self.log.error`
(which raises in the legacy framework), `zeroDiv` models the uncaught
`ZeroDivisionError` from `cnt / tot_cnt` with `tot_cnt = 0`, `warn` and
`info` model `self.log.warning` / `self.log.info` (the call then returns
normally). -/
inductive ReportOutcome where
  | fatal (msg : List Char)
  | zeroDiv
  | warn (msg : List Char)
  | info (msg : List Char)
deriving DecidableEq

/-- Whether an outcome is the fatal (`self.log.error`, raising) one. -/
def isFatalOutcome : ReportOutcome → Bool
  | .fatal _ => true
  | _ => false

/-- `logmsg = msg % (cnt, test_result.lower())` with
`msg = "Regression test reported %s / %s %s tests" % tot_cnt` baked in. -/
def regtestLogMsg (cnt totCnt : Nat) (resLower : List Char) : List Char :=
  str "Regression test reported " ++ natChars cnt ++ str " / " ++ natChars totCnt
    ++ str " " ++ resLower ++ str " tests"

/-- `test_result.lower()`. -/
def lowerS (s : List Char) : List Char := s.map Char.toLower

/-- Category names, already upper-cased (`test_result = test_result.upper()`
in the source; all call sites pass upper-case literals). -/
def failedS : List Char := str "FAILED"

/-- The `"WRONG"` category name. -/
def wrongS : List Char := str "WRONG"

/-- The `"CORRECT"` category name. -/
def correctS : List Char := str "CORRECT"

/-- `k > 0.1` for a non-negative integer `k` (the comparison of the Python
2 integer-division result with the float literal `0.1`), written exactly
by cross-multiplication: `k > 1/10 ↔ 10 * k > 1`. -/
def intGtPointOne (k : Nat) : Bool := 1 < 10 * k

/-- The `elif test_result == "CORRECT" or cnt == 0: info / else: warning`
tail of the `test_report` branch structure. -/
def test_report_tail (testResult : List Char) (cnt totCnt : Nat) : ReportOutcome :=
  if testResult = correctS ∨ cnt = 0 then
    .info (regtestLogMsg cnt totCnt (lowerS testResult))
  else
    .warn (regtestLogMsg cnt totCnt (lowerS testResult))

/-- Embedding of the nested `test_report` closure of `test_step`
(src lines 701–731): `found` is the regex extraction result for the
category, `totCnt` the already-extracted total count.  The `if/elif/else`
chain and the short-circuit evaluation order of

  `(test_result == "FAILED" and cnt > 0) or
   (test_result == "WRONG" and (cnt / tot_cnt) > 0.1)`

are preserved: the division is only evaluated when the first disjunct is
false and `test_result == "WRONG"`. -/
def test_report (testResult : List Char) (found : Option Nat) (totCnt : Nat)
    (ignoreRegtestFails : Bool) : ReportOutcome :=
  match found with
  | none => .fatal (str "Finding number of " ++ lowerS testResult
      ++ str " tests in regression test summary failed")
  | some cnt =>
    let logmsg := regtestLogMsg cnt totCnt (lowerS testResult)
    if testResult = failedS ∧ 0 < cnt then
      if ignoreRegtestFails then .warn logmsg else .fatal logmsg
    else if testResult = wrongS then
      if totCnt = 0 then .zeroDiv
      else if intGtPointOne (cnt / totCnt) then
        if ignoreRegtestFails then .warn logmsg else .fatal logmsg
      else test_report_tail testResult cnt totCnt
    else test_report_tail testResult cnt totCnt

/-- C1: For regression-test output reporting Total-count = 20 and
Wrong-count = 5 with `ignore_regtest_fails = False`, the claim expects the
ratio 0.25 > 0.10 to reject with a "wrong" reason.  The code instead
computes the Python 2 *integer* division `5 / 20 = 0`, finds `0 > 0.1`
false, and merely logs a warning: evaluating the embedded `test_report` at
the failing input yields a `warn` outcome and not the fatal (rejecting)
one. -/
theorem test_report_wrong_five_of_twenty_only_warns :
    test_report wrongS (some 5) 20 false = .warn (regtestLogMsg 5 20 (str "wrong")) ∧
      isFatalOutcome (test_report wrongS (some 5) 20 false) = false := by
  constructor
  · decide
  · decide

/-- C9 counterexample: the claim says an outcome whose Total-count is zero
never performs the division.  At the concrete input Total-count = 0 with a
found Wrong-count of 0, the embedded `test_report` evaluates
`cnt / tot_cnt` and crashes with `ZeroDivisionError`: the division *is*
performed. -/
theorem test_report_wrong_zero_total_divides :
    test_report wrongS (some 0) 0 false = .zeroDiv := by decide

/-- C9 (amended): the wrong-test ratio check is applied whenever the
category is `WRONG` and its count was found, with no guard on Total-count:
for Total-count = 0 the division is evaluated and the analysis crashes
with `ZeroDivisionError`; only for Total-count > 0 does the evaluation
avoid the division error. -/
theorem test_report_wrong_division_unguarded (cnt totCnt : Nat) (ign : Bool) :
    (totCnt = 0 → test_report wrongS (some cnt) totCnt ign = .zeroDiv) ∧
      (0 < totCnt → test_report wrongS (some cnt) totCnt ign ≠ .zeroDiv) := by
  have hne : ¬(wrongS = failedS ∧ 0 < cnt) := by
    rintro ⟨h1, -⟩
    exact absurd h1 (by decide)
  constructor
  · intro h
    subst h
    simp [test_report, hne]
  · intro h
    have hz : ¬(totCnt = 0) := Nat.pos_iff_ne_zero.mp h
    simp only [test_report, hne, hz, if_false, if_true]
    split
    · split <;> simp
    · unfold test_report_tail
      split <;> simp

/-- Witness for C9's amended theorem at concrete inputs. -/
theorem test_report_wrong_division_unguarded_witness :
    test_report wrongS (some 3) 0 true = .zeroDiv ∧
      test_report wrongS (some 3) 30 true ≠ .zeroDiv :=
  ⟨(test_report_wrong_division_unguarded 3 0 true).1 rfl,
   (test_report_wrong_division_unguarded 3 30 true).2 (by decide)⟩

/-! ## Python string primitives used by the synthesizer -/

/-- Helper for `pyReplace`: Python `s.replace(pat, rep)` scanning left to
right with non-overlapping matches, as a fuel-indexed structural
recursion (the fuel is instantiated with `s.length`, which is enough
because every step consumes at least one character of a non-empty
pattern's match or one unmatched character). -/
def pyReplaceAux (pat rep : List Char) : Nat → List Char → List Char
  | 0, s => s
  | _ + 1, [] => []
  | fuel + 1, c :: t =>
    if pat ≠ [] ∧ pat.isPrefixOf (c :: t) then
      rep ++ pyReplaceAux pat rep fuel ((c :: t).drop pat.length)
    else
      c :: pyReplaceAux pat rep fuel t

/-- Python `s.replace(pat, rep)` for a non-empty `pat`: replace every
non-overlapping occurrence of `pat`, scanning left to right, without
re-scanning the replacement text.  (For `pat = []` Python splices `rep`
between all characters; no call site of `replace` in the source uses an
empty pattern, and this embedding returns `s` unchanged there.) -/
def pyReplace (pat rep s : List Char) : List Char := pyReplaceAux pat rep s.length s

/-- Python `pat in s` (substring test), recursively: `pat` is a prefix of
`s` or occurs in its tail. -/
def containsPat (pat : List Char) : List Char → Bool
  | [] => pat.isPrefixOf []
  | c :: t => pat.isPrefixOf (c :: t) || containsPat pat t

/-- Split a character list on a separator character (Python
`s.split(sep)` for a single-character separator: `n` separators yield
`n + 1` pieces, empty pieces included). -/
def splitOnChar (sep : Char) : List Char → List (List Char)
  | [] => [[]]
  | c :: t =>
    let r := splitOnChar sep t
    if c = sep then [] :: r
    else
      match r with
      | [] => [[c]]
      | w :: ws => (c :: w) :: ws

/-- Value of a run of decimal digit characters (`int("072") = 72`). -/
def digitsToNat (w : List Char) : Nat := w.foldl (fun n c => 10 * n + (c.toNat - 48)) 0

/-- `distutils.version.LooseVersion` of an all-numeric dotted version
string, as its list of integer components ("11.1.072" ↦ `[11, 1, 72]`:
`LooseVersion` turns every maximal digit run into an `int`).  All version
strings compared in the source (`ifort`, `libxc` versions against
numeric literals) are of this dotted-numeric shape; non-numeric
components are outside the modelled domain. -/
def looseVersion (s : List Char) : List Nat := (splitOnChar '.' s).map digitsToNat

/-- Python 2 list comparison `a < b` on `LooseVersion` component lists
(lexicographic; a strict prefix is smaller). -/
def verLt : List Nat → List Nat → Bool
  | [], [] => false
  | [], _ :: _ => true
  | _ :: _, [] => false
  | a :: as, b :: bs => if a < b then true else if b < a then false else verLt as bs

/-- `verLt` is transitive (needed to chain version gates). -/
theorem verLt_trans : ∀ a b c : List Nat,
    verLt a b = true → verLt b c = true → verLt a c = true := by
  intro a
  induction a with
  | nil =>
    intro b c hab hbc
    cases b with
    | nil => simp [verLt] at hab
    | cons y ys =>
      cases c with
      | nil => simp [verLt] at hbc
      | cons z zs => simp [verLt]
  | cons x xs ih =>
    intro b c hab hbc
    cases b with
    | nil => simp [verLt] at hab
    | cons y ys =>
      cases c with
      | nil => simp [verLt] at hbc
      | cons z zs =>
        simp only [verLt] at hab hbc ⊢
        rcases Nat.lt_trichotomy x y with hxy | hxy | hxy
        · rcases Nat.lt_trichotomy y z with hyz | hyz | hyz
          · simp [Nat.lt_trans hxy hyz]
          · subst hyz
            simp [hxy]
          · rw [if_neg (Nat.lt_asymm hyz), if_pos hyz] at hbc
            exact absurd hbc (by simp)
        · subst hxy
          rcases Nat.lt_trichotomy x z with hyz | hyz | hyz
          · simp [hyz]
          · subst hyz
            rw [if_neg (Nat.lt_irrefl x), if_neg (Nat.lt_irrefl x)] at hab hbc ⊢
            exact ih _ _ hab hbc
          · rw [if_neg (Nat.lt_asymm hyz), if_pos hyz] at hbc
            exact absurd hbc (by simp)
        · rw [if_neg (Nat.lt_asymm hxy), if_pos hxy] at hab
          exact absurd hab (by simp)

/-! ## Makefile serialization (`_generate_makefile`)

`_generate_makefile(options)` folds over `options.iteritems()` — the
iteration order of a Python 2 `dict`, which is the order of the occupied
slots of its hash table, *not* the insertion order (the generated header
comment in the source itself says "items might appear in random order").
The embedding therefore takes the sequence of `(key, value)` pairs *as
yielded by iteration* as input, and separately models the Python 2 dict
iteration order for small dictionaries (below) to exhibit a dictionary
whose iteration order differs from its insertion order. -/

/-- The fixed generated-file comment header emitted first. -/
def makefileHeader : List Char := str "# Makefile generated by CP2K._generateMakefile, items might appear in random order\n"

/-- One serialized directive: `"%s = %s\n" % (key, value)`. -/
def makefileLine (kv : List Char × List Char) : List Char :=
  kv.1 ++ str " = " ++ kv.2 ++ str "\n"

/-- `_generate_makefile` (src lines 103–109): start from the header,
append one `KEY = VALUE` line per iterated item, then append the
accumulated `self.make_instructions`. -/
def generate_makefile (iterEntries : List (List Char × List Char))
    (makeInstructions : List Char) : List Char :=
  (iterEntries.foldl (fun text kv => text ++ makefileLine kv) makefileHeader) ++ makeInstructions

/-- CPython 2 `string_hash` on a 64-bit build without hash randomization
(the Python 2 default): `x = s[0] << 7; for ch in s: x = (1000003*x) ^ ch;
x ^= len(s)`, all modulo `2^64`, with the `-1 ↦ -2` adjustment. -/
def py2StringHash (s : List Char) : Nat :=
  match s with
  | [] => 0
  | c :: _ =>
    let m := 2 ^ 64
    let x0 := (c.toNat <<< 7) % m
    let x1 := s.foldl (fun x ch => ((1000003 * x) % m) ^^^ ch.toNat) x0
    let x2 := x1 ^^^ s.length
    if x2 = m - 1 then m - 2 else x2

/-- Iteration order (`iteritems`) of a small Python 2 `dict` built by
inserting `entries` in the given order: a fresh dict has 8 slots, a key
occupies slot `hash(key) & 7`, and iteration scans slots in increasing
order.  Faithful for dictionaries with at most 5 distinct keys landing in
pairwise distinct slots (no collision probing, no resize). -/
def py2SmallDictIter (entries : List (List Char × List Char)) :
    List (List Char × List Char) :=
  (List.range 8).flatMap (fun i => entries.filter (fun e => py2StringHash e.1 % 8 = i))

/-- Folding line-appends equals the header followed by the joined lines. -/
theorem foldl_makefileLine (l : List (List Char × List Char)) :
    ∀ init : List Char,
      l.foldl (fun text kv => text ++ makefileLine kv) init
        = init ++ (l.map makefileLine).flatten := by
  induction l with
  | nil => intro init; simp
  | cons kv t ih =>
    intro init
    simp only [List.foldl_cons, List.map_cons, List.flatten]
    rw [ih]
    simp [List.append_assoc]

/-- C2 (amended): `_generate_makefile` emits exactly one `KEY = VALUE`
line per directive, in the order the backing dict *iterates* its items
(which need not be the insertion order — the generated header itself
warns "items might appear in random order"), preceded by the fixed
generated-file comment header and followed by the accumulated
per-source-file compile-rule overrides (`self.make_instructions`). -/
theorem generate_makefile_layout (entries : List (List Char × List Char))
    (instr : List Char) :
    generate_makefile entries instr
      = makefileHeader ++ (entries.map makefileLine).flatten ++ instr := by
  unfold generate_makefile
  rw [foldl_makefileLine]

/-- C2 counterexample: a two-directive dictionary built by inserting key
`"FC"` (hash slot 3) and then key `"CC"` (hash slot 0).  Python 2 dict
iteration visits slot 0 first, so `iteritems` yields `CC` before `FC`,
and the serialized Makefile lists the directives in the *reverse* of
their insertion order — refuting "one line per directive … in the
OptionSet's insertion order". -/
theorem generate_makefile_not_insertion_order :
    py2SmallDictIter [(str "FC", str "mpif90"), (str "CC", str "mpicc")]
        = [(str "CC", str "mpicc"), (str "FC", str "mpif90")] ∧
      generate_makefile
          (py2SmallDictIter [(str "FC", str "mpif90"), (str "CC", str "mpicc")]) []
        ≠ generate_makefile [(str "FC", str "mpif90"), (str "CC", str "mpicc")] [] := by
  constructor
  · decide
  · decide

/-! ## Link-group normalization (`configure_step`, src lines 190–193)

    options['LIBS'] = options['LIBS'].replace('-Wl,--start-group', '')
                                     .replace('-Wl,--end-group', '')
    options['LIBS'] = "-Wl,--start-group %s -Wl,--end-group" % options['LIBS']
-/

/-- The group-start linker marker. -/
def startGroupS : List Char := str "-Wl,--start-group"

/-- The group-end linker marker. -/
def endGroupS : List Char := str "-Wl,--end-group"

/-- Remove all occurrences of the start marker, then of the end marker. -/
def stripGroups (libs : List Char) : List Char :=
  pyReplace endGroupS [] (pyReplace startGroupS [] libs)

/-- The whole normalization: strip markers, then re-wrap the value in a
single `-Wl,--start-group … -Wl,--end-group` pair. -/
def normalizeLibs (libs : List Char) : List Char :=
  startGroupS ++ str " " ++ stripGroups libs ++ str " " ++ endGroupS

/-- C5 counterexample: link-group normalization is *not* idempotent as a
string transformation.  At the concrete accumulated value `"-lfoo"`,
running the remove-markers-then-rewrap step twice yields a different
string than running it once (the `"%s %s %s"` re-wrap pads one extra
space on each side of the inner value per run), refuting "applying it
twice … yields the same wrapped string as applying it once". -/
theorem normalizeLibs_not_idempotent :
    normalizeLibs (normalizeLibs (str "-lfoo")) ≠ normalizeLibs (str "-lfoo") := by
  decide

/-! ## Lemmas about `pyReplace` (used for the normalization analysis) -/

/-- Any fuel at least the input length computes the same result as the
canonical fuel `s.length`. -/
theorem pyReplaceAux_fuel (pat rep : List Char) :
    ∀ fuel s, s.length ≤ fuel →
      pyReplaceAux pat rep fuel s = pyReplaceAux pat rep s.length s := by
  intro fuel
  induction fuel using Nat.strong_induction_on with
  | _ fuel ih =>
    intro s hs
    cases fuel with
    | zero =>
      have h0 : s.length = 0 := Nat.le_zero.mp hs
      rw [h0]
    | succ f =>
      cases s with
      | nil => rfl
      | cons c t =>
        simp only [List.length_cons]
        simp only [pyReplaceAux]
        split
        case isTrue hcond =>
          congr 1
          have hplen : 1 ≤ pat.length := by
            rcases hcond with ⟨hne, -⟩
            cases pat with
            | nil => exact absurd rfl hne
            | cons a b => simp
          have hdl : ((c :: t).drop pat.length).length ≤ t.length := by
            rw [List.length_drop]
            simp only [List.length_cons]
            omega
          have hf : t.length ≤ f := by
            simp only [List.length_cons] at hs
            omega
          rw [ih f (Nat.lt_succ_self f) _ (le_trans hdl hf),
            ih t.length (Nat.lt_succ_of_le hf) _ hdl]
        case isFalse hcond =>
          congr 1
          have hf : t.length ≤ f := by
            simp only [List.length_cons] at hs
            omega
          rw [ih f (Nat.lt_succ_self f) t hf]

/-- `pyReplace` on a cons whose head does not start a match keeps the
head. -/
theorem pyReplace_cons_no_match (pat rep : List Char) (c : Char) (t : List Char)
    (h : ¬(pat ≠ [] ∧ pat.isPrefixOf (c :: t) = true)) :
    pyReplace pat rep (c :: t) = c :: pyReplace pat rep t := by
  show pyReplaceAux pat rep ((c :: t).length) (c :: t) = _
  simp only [List.length_cons, pyReplaceAux]
  rw [if_neg h]
  rfl

/-- A list is a Boolean prefix of itself followed by anything. -/
theorem isPrefixOf_append_self (l r : List Char) : l.isPrefixOf (l ++ r) = true := by
  induction l with
  | nil => simp [List.isPrefixOf]
  | cons a t ih => simp [List.isPrefixOf, ih]

/-- `pyReplace` consumes a match sitting at the head. -/
theorem pyReplace_head_match (pat rep rest : List Char) (hne : pat ≠ []) :
    pyReplace pat rep (pat ++ rest) = rep ++ pyReplace pat rep rest := by
  cases pat with
  | nil => exact absurd rfl hne
  | cons p ps =>
    show pyReplaceAux (p :: ps) rep (((p :: ps) ++ rest).length) ((p :: ps) ++ rest)
      = rep ++ pyReplace (p :: ps) rep rest
    have hshape : (p :: ps) ++ rest = p :: (ps ++ rest) := rfl
    rw [hshape]
    have hlen : (p :: (ps ++ rest)).length = (ps ++ rest).length + 1 := by simp
    rw [hlen]
    simp only [pyReplaceAux]
    have hpre : (p :: ps).isPrefixOf (p :: (ps ++ rest)) = true :=
      isPrefixOf_append_self (p :: ps) rest
    rw [if_pos ⟨hne, hpre⟩]
    congr 1
    have hdrop : (p :: (ps ++ rest)).drop (p :: ps).length = rest :=
      List.drop_left (p :: ps) rest
    rw [hdrop]
    exact pyReplaceAux_fuel (p :: ps) rep (ps ++ rest).length rest (by simp)

/-- `pyReplace` is the identity on strings without an occurrence of the
pattern. -/
theorem pyReplace_not_contains (pat rep : List Char) :
    ∀ s, containsPat pat s = false → pyReplace pat rep s = s := by
  intro s
  induction s with
  | nil =>
    intro _
    rfl
  | cons c t ih =>
    intro h
    simp only [containsPat, Bool.or_eq_false_iff] at h
    have hnm : ¬(pat ≠ [] ∧ pat.isPrefixOf (c :: t) = true) := by
      rintro ⟨-, hp⟩
      rw [h.1] at hp
      cases hp
    rw [pyReplace_cons_no_match pat rep c t hnm, ih h.2]

/-- A prefix of `X ++ Y` not longer than `X` is a prefix of `X`. -/
theorem prefix_of_append_of_le {pat X Y : List Char}
    (h : pat <+: X ++ Y) (hl : pat.length ≤ X.length) : pat <+: X := by
  rw [List.prefix_iff_eq_take] at h ⊢
  rw [List.take_append_of_le_length hl] at h
  exact h

/-- A prefix of `X ++ sep :: v` longer than `X` contains `sep`. -/
theorem mem_of_prefix_past {pat X v : List Char} {sep : Char}
    (h : pat <+: X ++ sep :: v) (hlen : X.length < pat.length) : sep ∈ pat := by
  obtain ⟨t, ht⟩ := h
  have h1 : (X ++ sep :: v)[X.length]? = pat[X.length]? := by
    rw [← ht, List.getElem?_append_left hlen]
  have h2 : (X ++ sep :: v)[X.length]? = some sep := by
    rw [List.getElem?_append_right (le_refl X.length)]
    simp
  have h3 : pat[X.length]? = some pat[X.length] := List.getElem?_eq_getElem hlen
  have h4 : pat[X.length] = sep := by
    have := h2.symm.trans (h1.trans h3)
    exact (Option.some.injEq _ _ ▸ this).symm
  rw [← h4]
  exact List.getElem_mem hlen

/-- A separator character not in the pattern blocks occurrences: if
neither side contains the pattern, neither does `u ++ sep :: v`. -/
theorem not_contains_append_sep (pat : List Char) (sep : Char) (hsep : sep ∉ pat) :
    ∀ u v, containsPat pat u = false → containsPat pat v = false →
      containsPat pat (u ++ sep :: v) = false := by
  intro u
  induction u with
  | nil =>
    intro v hu hv
    simp only [List.nil_append, containsPat, Bool.or_eq_false_iff]
    refine ⟨?_, hv⟩
    cases pat with
    | nil => simp [containsPat, List.isPrefixOf] at hu
    | cons p ps =>
      have hps : p ≠ sep := fun he => hsep (he ▸ List.mem_cons_self p ps)
      simp [List.isPrefixOf, beq_eq_false_iff_ne.mpr hps]
  | cons c u' ih =>
    intro v hu hv
    simp only [containsPat, Bool.or_eq_false_iff] at hu
    simp only [List.cons_append, containsPat, Bool.or_eq_false_iff]
    refine ⟨?_, by simpa using ih v hu.2 hv⟩
    by_contra hb
    have hb' : pat.isPrefixOf (c :: (u' ++ sep :: v)) = true := by
      revert hb
      cases pat.isPrefixOf (c :: (u' ++ sep :: v)) <;> simp
    have hpre : pat <+: (c :: u') ++ sep :: v :=
      List.isPrefixOf_iff_prefix.mp hb'
    rcases Nat.lt_or_ge (c :: u').length pat.length with hl | hl
    · exact hsep (mem_of_prefix_past hpre hl)
    · have hx : pat <+: c :: u' := prefix_of_append_of_le hpre hl
      rw [← List.isPrefixOf_iff_prefix] at hx
      rw [hu.1] at hx
      cases hx

/-- `pyReplace` walks unchanged past a clean (occurrence-free) segment
terminated by a separator character not occurring in the pattern. -/
theorem pyReplace_append_sep (pat rep : List Char) (sep : Char) (hsep : sep ∉ pat) :
    ∀ u v, containsPat pat u = false →
      pyReplace pat rep (u ++ sep :: v) = u ++ sep :: pyReplace pat rep v := by
  intro u
  induction u with
  | nil =>
    intro v _
    simp only [List.nil_append]
    have hnm : ¬(pat ≠ [] ∧ pat.isPrefixOf (sep :: v) = true) := by
      rintro ⟨hne, hp⟩
      cases pat with
      | nil => exact hne rfl
      | cons p ps =>
        have hps : p ≠ sep := fun he => hsep (he ▸ List.mem_cons_self p ps)
        simp [List.isPrefixOf, beq_eq_false_iff_ne.mpr hps] at hp
    rw [pyReplace_cons_no_match pat rep sep v hnm]
  | cons c u' ih =>
    intro v hu
    simp only [containsPat, Bool.or_eq_false_iff] at hu
    have hnm : ¬(pat ≠ [] ∧ pat.isPrefixOf (c :: (u' ++ sep :: v)) = true) := by
      rintro ⟨hne, hp⟩
      have hpre : pat <+: (c :: u') ++ sep :: v :=
        List.isPrefixOf_iff_prefix.mp hp
      rcases Nat.lt_or_ge (c :: u').length pat.length with hl | hl
      · exact hsep (mem_of_prefix_past hpre hl)
      · have hx : pat <+: c :: u' := prefix_of_append_of_le hpre hl
        rw [← List.isPrefixOf_iff_prefix] at hx
        rw [hu.1] at hx
        cases hx
    rw [List.cons_append, pyReplace_cons_no_match pat rep c (u' ++ sep :: v) hnm,
      ih v hu.2]
    simp

/-- C5 (amended): re-running link-group normalization never nests
wrappers — on a value whose stripped form has no residual marker
occurrence, the second run strips the first run's wrapper and re-wraps
exactly once — but it is *not* string-idempotent: each re-run pads one
extra space between the markers and the inner value
(`normalize² s = SM ++ "  " ++ strip s ++ "  " ++ EM` versus
`normalize s = SM ++ " " ++ strip s ++ " " ++ EM`). -/
theorem normalizeLibs_twice (libs : List Char)
    (h1 : containsPat startGroupS (stripGroups libs) = false)
    (h2 : containsPat endGroupS (stripGroups libs) = false) :
    normalizeLibs (normalizeLibs libs)
      = startGroupS ++ str "  " ++ stripGroups libs ++ str "  " ++ endGroupS := by
  have hSMne : startGroupS ≠ [] := by decide
  have hEMne : endGroupS ≠ [] := by decide
  have hspSM : ' ' ∉ startGroupS := by decide
  have hspEM : ' ' ∉ endGroupS := by decide
  have hEMnoSM : containsPat startGroupS endGroupS = false := by decide
  have hnilSM : containsPat startGroupS ([] : List Char) = false := by decide
  have hnilEM : containsPat endGroupS ([] : List Char) = false := by decide
  have hsp : str " " = [' '] := rfl
  have hshape : normalizeLibs libs
      = startGroupS ++ (' ' :: (stripGroups libs ++ ' ' :: endGroupS)) := by
    simp [normalizeLibs, hsp, List.append_assoc]
  have hc2 : containsPat startGroupS (stripGroups libs ++ ' ' :: endGroupS) = false :=
    not_contains_append_sep _ _ hspSM _ _ h1 hEMnoSM
  have hc1 : containsPat startGroupS (' ' :: (stripGroups libs ++ ' ' :: endGroupS))
      = false := by
    have := not_contains_append_sep _ _ hspSM []
      (stripGroups libs ++ ' ' :: endGroupS) hnilSM hc2
    simpa using this
  have hstep1 : pyReplace startGroupS [] (normalizeLibs libs)
      = ' ' :: (stripGroups libs ++ ' ' :: endGroupS) := by
    rw [hshape, pyReplace_head_match _ _ _ hSMne, List.nil_append,
      pyReplace_not_contains _ _ _ hc1]
  have hEMself : pyReplace endGroupS [] endGroupS = [] := by
    have h := pyReplace_head_match endGroupS [] [] hEMne
    simpa using h
  have hstep2 : pyReplace endGroupS [] (' ' :: (stripGroups libs ++ ' ' :: endGroupS))
      = ' ' :: (stripGroups libs ++ [' ']) := by
    have h0 := pyReplace_append_sep endGroupS [] ' ' hspEM []
      (stripGroups libs ++ ' ' :: endGroupS) hnilEM
    simp only [List.nil_append] at h0
    rw [h0, pyReplace_append_sep endGroupS [] ' ' hspEM _ endGroupS h2, hEMself]
  have hstrip : stripGroups (normalizeLibs libs)
      = ' ' :: (stripGroups libs ++ [' ']) := by
    show pyReplace endGroupS [] (pyReplace startGroupS [] (normalizeLibs libs)) = _
    rw [hstep1, hstep2]
  calc normalizeLibs (normalizeLibs libs)
      = startGroupS ++ str " " ++ stripGroups (normalizeLibs libs)
          ++ str " " ++ endGroupS := rfl
    _ = startGroupS ++ str " " ++ (' ' :: (stripGroups libs ++ [' ']))
          ++ str " " ++ endGroupS := by rw [hstrip]
    _ = startGroupS ++ str "  " ++ stripGroups libs ++ str "  " ++ endGroupS := by
        have h2sp : str "  " = [' ', ' '] := rfl
        simp [hsp, h2sp, List.append_assoc]

/-- Witness for C5's amended theorem at the concrete value `"-lfoo"`. -/
theorem normalizeLibs_twice_witness :
    normalizeLibs (normalizeLibs (str "-lfoo"))
      = startGroupS ++ str "  " ++ stripGroups (str "-lfoo") ++ str "  " ++ endGroupS :=
  normalizeLibs_twice (str "-lfoo") (by decide) (by decide)

/-! ## Configuration synthesizer data model

Inputs the `configure_step` pipeline reads: the toolchain object
(`self.toolchain`), the easyconfig (`self.cfg`), the environment
(`os.getenv` values set by the framework) and the software catalog
(`get_software_root` / `get_software_version` answers; `none` means the
module is not loaded). -/

/-- `self.toolchain.options[...]` flags read by the easyblock. -/
structure ToolchainFlags where
  debug : Bool
  pic : Bool
  optarch : Bool

/-- Facts about the active toolchain.  `compFamily` is the value of
`self.toolchain.comp_family()` compared against the framework constants
`toolchain.INTELCOMP` / `toolchain.GCC`; `mpiFamily` is
`self.toolchain.mpi_family()` when the toolchain has a non-`None`
`MPI_FAMILY` attribute, and `none` otherwise (e.g. the dummy toolchain).
The string values of the family constants are used only as tags compared
against each other. -/
structure Toolchain where
  flags : ToolchainFlags
  name : List Char
  compFamily : List Char
  mpiFamily : Option (List Char)
  openmpFlag : List Char

/-- Easyconfig parameters read by the pipeline (`self.cfg[...]`).
`modinc` is the truthiness of `self.cfg["modinc"]`. -/
structure BuildCfg where
  buildType : List Char
  typeopt : Bool
  modinc : Bool
  extracflags : List Char
  extradflags : List Char

/-- Environment variables read via `os.getenv` (set by the framework;
modelled as total strings). -/
structure Env where
  MPICC : List Char
  MPIF90 : List Char
  EBVARCPPFLAGS : List Char
  EBVARLDFLAGS : List Char
  LIBS : List Char
  LIBBLAS : List Char
  LIBSCALAPACK : List Char
  LIBLAPACK_MT : List Char
  LIBFFT : List Char
  EBROOTFFTW : List Char

/-- Software catalog: `get_software_root` results for the modules the
easyblock probes (`none` = module not loaded), the
`get_software_version` strings consulted for LibInt / libxc / ifort, and
the `glob` result for the libsmm archive files
(`<root>/lib/libsmm_*nn.a`). -/
structure Catalog where
  imkl : Option (List Char)
  acml : Option (List Char)
  fftw : Option (List Char)
  lapack : Option (List Char)
  scalapack : Option (List Char)
  libint : Option (List Char)
  libxc : Option (List Char)
  libsmm : Option (List Char)
  impi : Option (List Char)
  mvapich2 : Option (List Char)
  openmpi : Option (List Char)
  mpich2 : Option (List Char)
  mpich : Option (List Char)
  libintVer : List Char
  libxcVer : List Char
  ifortVer : List Char
  libsmmFiles : List (List Char)

/-- The accumulated `options` dictionary as a record: one field per
directive key ever written by the pipeline.  Keys a Python run would not
have created yet simply hold `[]` here; no claim depends on the
present/absent distinction. -/
structure Options where
  CC : List Char := []
  CPP : List Char := []
  FC : List Char := []
  LD : List Char := []
  AR : List Char := []
  CPPFLAGS : List Char := []
  FPIC : List Char := []
  DEBUG : List Char := []
  FCFLAGS : List Char := []
  FCFLAGS2 : List Char := []
  CFLAGS : List Char := []
  DFLAGS : List Char := []
  LIBS : List Char := []
  FCFLAGSNOOPT : List Char := []
  FCFLAGSOPT : List Char := []
  FCFLAGSOPT2 : List Char := []
  FREE : List Char := []
  SAFE : List Char := []
  INCFLAGS : List Char := []
  LDFLAGS : List Char := []
  OBJECTS_ARCHITECTURE : List Char := []
  INTEL_INC : List Char := []
  INTEL_INCF : List Char := []
  ACML_INC : List Char := []
  FFTW_INC : List Char := []
  FFTW3INC : List Char := []
  FFTW3LIB : List Char := []
  LIBINTLIB : List Char := []

/-! ## MPI-2 capability check (`configure_common`, src lines 274–300) -/

/-- The keys of `mpi_spec_by_fam` — the toolchain MPI families the source
recognizes as MPI-2 capable (every entry maps to `'mpi2'`). -/
def mpi2Fams : List (List Char) :=
  [str "MPICH", str "MPICH2", str "MVAPICH2", str "OpenMPI", str "IMPI"]

/-- The `mpi2libs` fallback scan list, consulted only when the toolchain
has no (non-`None`) `MPI_FAMILY` attribute: `mpi2` becomes true iff one
of `impi`, `MVAPICH2`, `OpenMPI`, `MPICH2`, `MPICH` has a software root. -/
def mpi2Detected (tc : Toolchain) (cat : Catalog) : Bool :=
  match tc.mpiFamily with
  | some fam => mpi2Fams.contains fam
  | none =>
    cat.impi.isSome || cat.mvapich2.isSome || cat.openmpi.isSome
      || cat.mpich2.isSome || cat.mpich.isSome

/-- `self.openmp`: the toolchain OpenMP flag for a `psmp` build, empty
otherwise (`configure_common`, src lines 263–264). -/
def openmpOf (tc : Toolchain) (cfg : BuildCfg) : List Char :=
  if cfg.buildType = str "psmp" then tc.openmpFlag else []

/-! ## LibInt fragment (`configure_common`, src lines 328–369) -/

/-- The LibInt link-library list chosen by the major version component of
`get_software_version('LibInt')` (src lines 358–365): version "1" yields
the three static archives, "2" the single combined archive, anything
else is fatal. -/
def libint_libs_for (majVer : List Char) : Except (List Char) (List Char) :=
  if majVer = str "1" then
    .ok (str "$(LIBINTLIB)/libderiv.a $(LIBINTLIB)/libint.a $(LIBINTLIB)/libr12.a")
  else if majVer = str "2" then
    .ok (str "$(LIBINTLIB)/libint2.a")
  else
    .error (str "Don\x27t know how to handle libint version " ++ majVer)

/-- Number of static-archive references (space-separated words ending in
`.a`) in a link-library value. -/
def archiveRefCount (v : List Char) : Nat :=
  ((splitOnChar ' ' v).filter (fun w => w ≠ [])).countP
    (fun w => (str ".a").isSuffixOf w)

/-- The LibInt block of `configure_common`, applied when
`get_software_root('LibInt')` is set.  The libint wrapper compilation
(needed only when `self.compilerISO_C_BINDING` is false; the easyblock
initializes it to `True` and nothing in this file clears it) is an
external `run_cmd` invocation, abstracted to the flags
`libinttoolsFound` / `wrapperCompileOk` and the path `libinttoolsPath`;
its directory search and command text are not modelled. -/
def configure_libint (libintRoot libintVer : List Char) (isoCBinding : Bool)
    (libinttoolsFound wrapperCompileOk : Bool) (libinttoolsPath : List Char)
    (opts : Options) : Except (List Char) Options :=
  let opts := { opts with DFLAGS := opts.DFLAGS ++ str " -D__LIBINT" }
  let wrapped : Except (List Char) (List Char × Options) :=
    if isoCBinding then .ok ([], opts)
    else
      let opts := { opts with DFLAGS := opts.DFLAGS ++ str " -D__HAS_NO_ISO_C_BINDING" }
      if ¬ libinttoolsFound then .error (str "No libinttools dir found")
      else if ¬ wrapperCompileOk then .error (str "Building the libint wrapper failed")
      else .ok (libinttoolsPath ++ str "/libint_cpp_wrapper.o", opts)
  match wrapped with
  | .error e => .error e
  | .ok (libintWrapper, opts) =>
    match libint_libs_for ((splitOnChar '.' libintVer).headD []) with
    | .error e => .error e
    | .ok libintLibs =>
      .ok { opts with
        LIBINTLIB := libintRoot ++ str "/lib",
        LIBS := opts.LIBS ++ str " " ++ libintLibs ++ str " -lstdc++ " ++ libintWrapper }

/-! ## libxc fragment (`configure_common`, src lines 376–389) -/

/-- The libxc block of `configure_common`, applied when
`get_software_root('libxc')` is set: a version below
`LIBXC_MIN_VERSION = '2.0.1'` is fatal; `-D__LIBXC2` is added; a version
`≥ 2.2` links `-lxcf90 -lxc`, otherwise only `-lxc`. -/
def configure_libxc (libxcRoot libxcVer : List Char) (opts : Options) :
    Except (List Char) Options :=
  if verLt (looseVersion libxcVer) (looseVersion (str "2.0.1")) then
    .error (str "CP2K only works with libxc v2.0.1 (or later)")
  else
    let opts := { opts with DFLAGS := opts.DFLAGS ++ str " -D__LIBXC2" }
    if ¬ verLt (looseVersion libxcVer) (looseVersion (str "2.2")) then
      .ok { opts with LIBS := opts.LIBS ++ str " -L" ++ libxcRoot ++ str "/lib -lxcf90 -lxc" }
    else
      .ok { opts with LIBS := opts.LIBS ++ str " -L" ++ libxcRoot ++ str "/lib -lxc" }

/-! ## Common fragment (`configure_common`, src lines 257–391) -/

/-- The `options` dictionary literal of `configure_common`
(src lines 302–326). -/
def common_options_base (cfg : BuildCfg) (env : Env)
    (openmp fpic debug optflags regflags : List Char) : Options :=
  { CC := env.MPICC
    CPP := []
    FC := env.MPIF90 ++ str " " ++ openmp
    LD := env.MPIF90 ++ str " " ++ openmp
    AR := str "ar -r"
    CPPFLAGS := []
    FPIC := fpic
    DEBUG := debug
    FCFLAGS := str "$(FCFLAGS" ++ optflags ++ str ")"
    FCFLAGS2 := str "$(FCFLAGS" ++ regflags ++ str ")"
    CFLAGS := (str " " ++ env.EBVARCPPFLAGS ++ str " " ++ env.EBVARLDFLAGS
      ++ str " $(FPIC) $(DEBUG) " ++ cfg.extracflags ++ str " ")
    DFLAGS := str " -D__parallel -D__BLACS -D__SCALAPACK -D__FFTSG " ++ cfg.extradflags
    LIBS := env.LIBS
    FCFLAGSNOOPT := str "$(DFLAGS) $(CFLAGS) -O0  $(FREE) $(FPIC) $(DEBUG)"
    FCFLAGSOPT := str "-O2 $(FREE) $(SAFE) $(FPIC) $(DEBUG)"
    FCFLAGSOPT2 := str "-O1 $(FREE) $(SAFE) $(FPIC) $(DEBUG)" }

/-- `configure_common`: the MPI-2 gate, the base options dictionary, then
the optional LibInt and libxc blocks (absent libraries are no-ops
besides a log line). -/
def configure_common (tc : Toolchain) (cfg : BuildCfg) (env : Env) (cat : Catalog)
    (fpic debug : List Char) (isoCBinding libinttoolsFound wrapperCompileOk : Bool)
    (libinttoolsPath : List Char) : Except (List Char) Options :=
  let openmp := openmpOf tc cfg
  let optflags := if cfg.typeopt then str "OPT" else str "NOOPT"
  let regflags := if cfg.typeopt then str "OPT2" else str "NOOPT"
  if ¬ mpi2Detected tc cat then
    .error (str "CP2K needs MPI-2, no known MPI-2 supporting library loaded?")
  else
    let opts := common_options_base cfg env openmp fpic debug optflags regflags
    let afterLibint : Except (List Char) Options :=
      match cat.libint with
      | some root => configure_libint root cat.libintVer isoCBinding
          libinttoolsFound wrapperCompileOk libinttoolsPath opts
      | none => .ok opts
    match afterLibint with
    | .error e => .error e
    | .ok opts =>
      match cat.libxc with
      | some root => configure_libxc root cat.libxcVer opts
      | none => .ok opts

/-! ## Intel fragment and version gate (`configure_intel_based`,
src lines 393–453) -/

/-- Compile-rule override forcing `et_coupling.F` to build with
`$(FCFLAGS2)` (the lower optimization flag set). -/
def etCouplingRule : List Char := str "et_coupling.o: et_coupling.F\n\t$(FC) -c $(FCFLAGS2) $<\n"

/-- Compile-rule override forcing `qs_vxc_atom.F` to build with
`$(FCFLAGS2)` (the lower optimization flag set). -/
def qsVxcAtomRule : List Char := str "qs_vxc_atom.o: qs_vxc_atom.F\n\t$(FC) -c $(FCFLAGS2) $<\n"

/-- The Intel guidelines URL interpolated into the gate failure message. -/
def intelUrl : List Char := str "http://software.intel.com/en-us/articles/build-cp2k-using-intel-fortran-compiler-professional-edition/"

/-- `failmsg % (comp, minv)`. -/
def intelFailMsg (comp minv : List Char) : List Char :=
  str "CP2K won\x27t build correctly with the Intel " ++ comp
    ++ str " compilers prior to " ++ minv ++ str ", see " ++ intelUrl

/-- The compiler-version gate of `configure_intel_based`
(src lines 429–451): on success it returns the per-source-file
compile-rule overrides appended to `self.make_instructions` (empty at
that point in `configure_step`). -/
def intel_gate (ifortVerStr : List Char) : Except (List Char) (List Char) :=
  let iv := looseVersion ifortVerStr
  if ¬ verLt iv (looseVersion (str "2011")) ∧ verLt iv (looseVersion (str "2012")) then
    if ¬ verLt iv (looseVersion (str "2011.8")) then
      .ok (etCouplingRule ++ qsVxcAtomRule)
    else
      .error (intelFailMsg (str "v12") (str "v2011.8"))
  else if ¬ verLt iv (looseVersion (str "11")) then
    if ¬ verLt iv (looseVersion (str "11.1.072")) then
      .ok qsVxcAtomRule
    else
      .error (intelFailMsg (str "v11") (str "v11.1.072"))
  else
    .error (str "Intel compilers version " ++ ifortVerStr ++ str " not supported yet.")

/-- `configure_intel_based`: common fragment, Intel-specific directive
updates, then the version gate; returns the updated options together
with the make-instruction overrides contributed by the gate. -/
def configure_intel_based (tc : Toolchain) (cfg : BuildCfg) (env : Env) (cat : Catalog)
    (fpic debug modincpath : List Char)
    (isoCBinding libinttoolsFound wrapperCompileOk : Bool) (libinttoolsPath : List Char) :
    Except (List Char) (Options × List Char) :=
  match configure_common tc cfg env cat fpic debug isoCBinding libinttoolsFound
      wrapperCompileOk libinttoolsPath with
  | .error e => .error e
  | .ok opts =>
    let extrainc := if modincpath ≠ [] then str "-I" ++ modincpath else []
    let opts := { opts with
      FREE := str "-fpp -free"
      SAFE := str "-assume protect_parens -no-unroll-aggressive"
      INCFLAGS := str "$(DFLAGS) -I$(INTEL_INC) -I$(INTEL_INCF) " ++ extrainc
      LDFLAGS := str "$(INCFLAGS) -i-static"
      OBJECTS_ARCHITECTURE := str "machine_intel.o" }
    let opts := { opts with DFLAGS := opts.DFLAGS ++ str " -D__INTEL" }
    let optarch := if tc.flags.optarch then str "-xHOST" else []
    let opts := { opts with
      FCFLAGSOPT := opts.FCFLAGSOPT ++ str " $(INCFLAGS) " ++ optarch ++ str " -heap-arrays 64"
      FCFLAGSOPT2 := opts.FCFLAGSOPT2 ++ str " $(INCFLAGS) " ++ optarch ++ str " -heap-arrays 64" }
    match intel_gate cat.ifortVer with
    | .error e => .error e
    | .ok newInstructions => .ok (opts, newInstructions)

/-- `configure_GCC_based` (src lines 455–476): common fragment plus
GCC-specific directive updates; contributes no make-instruction
overrides. -/
def configure_GCC_based (tc : Toolchain) (cfg : BuildCfg) (env : Env) (cat : Catalog)
    (fpic debug : List Char)
    (isoCBinding libinttoolsFound wrapperCompileOk : Bool) (libinttoolsPath : List Char) :
    Except (List Char) (Options × List Char) :=
  match configure_common tc cfg env cat fpic debug isoCBinding libinttoolsFound
      wrapperCompileOk libinttoolsPath with
  | .error e => .error e
  | .ok opts =>
    let opts := { opts with
      FREE := str "-ffree-form -ffree-line-length-none"
      LDFLAGS := str "$(FCFLAGS)"
      OBJECTS_ARCHITECTURE := str "machine_gfortran.o" }
    let opts := { opts with DFLAGS := opts.DFLAGS ++ str " -D__GFORTRAN" }
    let optarch := if tc.flags.optarch then str "-march=native" else []
    let opts := { opts with
      FCFLAGSOPT := (opts.FCFLAGSOPT ++ str " $(DFLAGS) $(CFLAGS) " ++ optarch
        ++ str " -fmax-stack-var-size=32768")
      FCFLAGSOPT2 := opts.FCFLAGSOPT2 ++ str " $(DFLAGS) $(CFLAGS) " ++ optarch }
    .ok (opts, [])

/-! ## BLAS-provider fragments (src lines 478–531) and their dispatch
(`configure_step`, src lines 173–179) -/

/-- `configure_MKL` (src lines 502–531). -/
def configure_MKL (cat : Catalog) (env : Env) (modincpath libsmmStr : List Char)
    (opts : Options) : Options :=
  let opts := { opts with INTEL_INC := str "$(MKLROOT)/include" }
  let opts := { opts with DFLAGS := opts.DFLAGS ++ str " -D__FFTW3" }
  let extra := if modincpath ≠ [] then str "-I" ++ modincpath else []
  let opts := { opts with CFLAGS := (opts.CFLAGS ++ str " -I$(INTEL_INC) " ++ extra
      ++ str " $(FPIC) $(DEBUG)") }
  let opts := { opts with LIBS := (opts.LIBS ++ str " " ++ libsmmStr ++ str " "
      ++ env.LIBSCALAPACK) }
  if cat.fftw.isNone then
    let opts := { opts with INTEL_INCF := str "$(INTEL_INC)/fftw" }
    let opts := { opts with DFLAGS := opts.DFLAGS ++ str " -D__FFTMKL" }
    let opts := { opts with CFLAGS := opts.CFLAGS ++ str " -I$(INTEL_INCF)" }
    { opts with LIBS := env.LIBFFT ++ str " " ++ opts.LIBS }
  else
    opts

/-- `configure_ACML` (src lines 478–493). -/
def configure_ACML (acmlRoot : List Char) (env : Env) (openmp libsmmStr : List Char)
    (opts : Options) : Options :=
  let sfx := if openmp ≠ [] then str "_mp" else []
  let opts := { opts with ACML_INC := acmlRoot ++ str "/gfortran64" ++ sfx ++ str "/include" }
  let opts := { opts with CFLAGS := opts.CFLAGS ++ str " -I$(ACML_INC) -I$(FFTW_INC)" }
  let opts := { opts with DFLAGS := opts.DFLAGS ++ str " -D__FFTACML" }
  let blas := pyReplace (str "gfortran64") (str "gfortran64" ++ sfx) env.LIBBLAS
  { opts with LIBS := (opts.LIBS ++ str " " ++ libsmmStr ++ str " "
      ++ env.LIBSCALAPACK ++ str " " ++ blas) }

/-- `configure_BLAS_lib` (src lines 495–500). -/
def configure_BLAS_lib (env : Env) (libsmmStr : List Char) (opts : Options) : Options :=
  { opts with LIBS := opts.LIBS ++ str " " ++ libsmmStr ++ str " " ++ env.LIBBLAS }

/-- `configure_FFTW` (src lines 533–548). -/
def configure_FFTW (fftwRoot : List Char) (env : Env) (opts : Options) : Options :=
  let opts := { opts with
    FFTW_INC := fftwRoot ++ str "/include"
    FFTW3INC := fftwRoot ++ str "/include"
    FFTW3LIB := fftwRoot ++ str "/lib" }
  let opts := { opts with DFLAGS := opts.DFLAGS ++ str " -D__FFTW3" }
  { opts with LIBS := opts.LIBS ++ str " -L" ++ env.EBROOTFFTW ++ str "/lib -lfftw3" }

/-- `configure_LAPACK` (src lines 550–555). -/
def configure_LAPACK (env : Env) (opts : Options) : Options :=
  { opts with LIBS := opts.LIBS ++ str " " ++ env.LIBLAPACK_MT }

/-- `configure_ScaLAPACK` (src lines 557–562). -/
def configure_ScaLAPACK (env : Env) (opts : Options) : Options :=
  { opts with LIBS := opts.LIBS ++ str " " ++ env.LIBSCALAPACK }

/-- The BLAS-provider choice of `configure_step` (src lines 173–179):
`IMKL` root present → MKL fragment; else `ACML` root present → ACML
fragment; else the generic BLAS fragment. -/
inductive BlasProvider where
  | imklProv
  | acmlProv
  | blasProv
deriving DecidableEq

/-- The provider selected by the `if get_software_root('IMKL') /
elif get_software_root('ACML') / else` chain. -/
def blas_branch (cat : Catalog) : BlasProvider :=
  if cat.imkl.isSome then .imklProv
  else if cat.acml.isSome then .acmlProv
  else .blasProv

/-- The BLAS dispatch itself: applies exactly the fragment of the branch
taken by the source's `if/elif/else`. -/
def apply_blas (cat : Catalog) (env : Env) (openmp modincpath libsmmStr : List Char)
    (opts : Options) : Options :=
  match cat.imkl, cat.acml with
  | some _, _ => configure_MKL cat env modincpath libsmmStr opts
  | none, some root => configure_ACML root env openmp libsmmStr opts
  | none, none => configure_BLAS_lib env libsmmStr opts

/-! ## libsmm detection (`configure_step`, src lines 144–152) -/

/-- `os.path.basename`: the last `/`-separated component. -/
def lastPathComponent (p : List Char) : List Char :=
  (splitOnChar '/' p).reverse.headD []

/-- `os.path.splitext(x)[0]`: drop the last dot-extension (faithful for
names with an extension and no leading dot, as the globbed
`libsmm_*nn.a` files are). -/
def dropLastExt (w : List Char) : List Char :=
  let parts := splitOnChar '.' w
  if parts.length ≤ 1 then w else List.intercalate (str ".") parts.dropLast

/-- One libsmm preprocessor define:
`os.path.basename(os.path.splitext(x)[0]).replace('lib', '-D__HAS_')`. -/
def libsmmDefine (path : List Char) : List Char :=
  pyReplace (str "lib") (str "-D__HAS_") (dropLastExt (lastPathComponent path))

/-- `' '.join(l)`. -/
def joinSpace : List (List Char) → List Char
  | [] => []
  | [x] => x
  | x :: y :: t => x ++ str " " ++ joinSpace (y :: t)

/-- Modelled from the external EasyBuild framework (not part of this
repository): `EasyConfig.update(key, value)` appends a string value to
the previous one as `'%s %s ' % (prev, value)`. -/
def cfgUpdate (old new : List Char) : List Char := old ++ str " " ++ new ++ str " "

/-- The libsmm block of `configure_step` (src lines 144–152): when a
libsmm root is detected, each globbed archive contributes a
`-D__HAS_…` define appended to `extradflags`, and `self.libsmm` becomes
the space-joined archive list.  Returns
`(updated extradflags, self.libsmm)`. -/
def libsmm_stage (cat : Catalog) (extradflags : List Char) : List Char × List Char :=
  match cat.libsmm with
  | some _ =>
    let dfs := cat.libsmmFiles.map libsmmDefine
    let moredflags := str " " ++ joinSpace dfs
    (cfgUpdate extradflags moredflags, joinSpace cat.libsmmFiles)
  | none => (extradflags, [])

/-! ## `configure_step` (src lines 111–205) -/

/-- `toolchain.INTELCOMP` (used only as a tag). -/
def INTELCOMP : List Char := str "Intel"

/-- `toolchain.GCC` (used only as a tag). -/
def GCCFam : List Char := str "GCC"

/-- `prepmodinc` (src lines 207–255): fatal when IMKL is absent; the
directory preparation and per-file Fortran compilations are external
invocations, abstracted to `externalOk` and the prepared path. -/
def prepmodinc (cat : Catalog) (externalOk : Bool) (preparedPath : List Char) :
    Except (List Char) (List Char) :=
  match cat.imkl with
  | some _ =>
    if externalOk then .ok preparedPath
    else .error (str "prepmodinc: external preparation step failed")
  | none => .error (str "Don\x27t know how to prepare modinc, IMKL not found")

/-- All inputs of one `configure_step` call. -/
structure World where
  tc : Toolchain
  cfg : BuildCfg
  env : Env
  cat : Catalog
  isoCBinding : Bool := true
  libinttoolsFound : Bool := true
  wrapperCompileOk : Bool := true
  libinttoolsPath : List Char := []
  modincExternalOk : Bool := true
  modincPreparedPath : List Char := []

/-- `configure_step`: build-type check, debug/PIC flags, libsmm
detection, optional modinc preparation, compiler-family dispatch, BLAS
dispatch, independent library fragments, link-group normalization.
Returns the final options and the accumulated `self.make_instructions`
(the filesystem write of the arch file is external).  The start-dir
correction and log calls are no-ops for the option set. -/
def configure_step (w : World) : Except (List Char) (Options × List Char) :=
  if ¬ (w.cfg.buildType = str "popt" ∨ w.cfg.buildType = str "psmp") then
    .error (str "Unknown build type specified: \x27" ++ w.cfg.buildType
      ++ str "\x27, known types are [\x27popt\x27, \x27psmp\x27]")
  else
    let debug := if w.tc.flags.debug then str "-g" else []
    let fpic := if w.tc.flags.pic then str "-fPIC" else []
    let stage := libsmm_stage w.cat w.cfg.extradflags
    let cfg2 := { w.cfg with extradflags := stage.1 }
    let libsmmStr := stage.2
    let modincRes : Except (List Char) (List Char) :=
      if w.cfg.modinc then prepmodinc w.cat w.modincExternalOk w.modincPreparedPath
      else .ok []
    match modincRes with
    | .error e => .error e
    | .ok modincpath =>
      let famRes : Except (List Char) (Options × List Char) :=
        if w.tc.compFamily = INTELCOMP then
          configure_intel_based w.tc cfg2 w.env w.cat fpic debug modincpath
            w.isoCBinding w.libinttoolsFound w.wrapperCompileOk w.libinttoolsPath
        else if w.tc.compFamily = GCCFam then
          configure_GCC_based w.tc cfg2 w.env w.cat fpic debug
            w.isoCBinding w.libinttoolsFound w.wrapperCompileOk w.libinttoolsPath
        else
          .error (str "Don\x27t know how to tweak configuration for compiler used.")
      match famRes with
      | .error e => .error e
      | .ok (opts, instructions) =>
        let openmp := openmpOf w.tc cfg2
        let opts := apply_blas w.cat w.env openmp modincpath libsmmStr opts
        let opts := match w.cat.fftw with
          | some root => configure_FFTW root w.env opts
          | none => opts
        let opts := match w.cat.lapack with
          | some _ => configure_LAPACK w.env opts
          | none => opts
        let opts := match w.cat.scalapack with
          | some _ => configure_ScaLAPACK w.env opts
          | none => opts
        let opts := { opts with LIBS := normalizeLibs opts.LIBS }
        .ok (opts, instructions)

/-! ## Shared concrete inputs for witnesses -/

/-- An empty software catalog (no optional library loaded). -/
def emptyCatalog : Catalog :=
  { imkl := none, acml := none, fftw := none, lapack := none, scalapack := none
    libint := none, libxc := none, libsmm := none, impi := none, mvapich2 := none
    openmpi := none, mpich2 := none, mpich := none
    libintVer := [], libxcVer := [], ifortVer := [], libsmmFiles := [] }

/-- A concrete environment, for witnesses. -/
def env0 : Env :=
  { MPICC := str "mpicc", MPIF90 := str "mpif90", EBVARCPPFLAGS := []
    EBVARLDFLAGS := [], LIBS := str "-lm", LIBBLAS := str "-lblas"
    LIBSCALAPACK := str "-lscalapack", LIBLAPACK_MT := str "-llapack"
    LIBFFT := str "-lfftw3", EBROOTFFTW := str "/opt/fftw" }

/-! ## Infix helpers -/

/-- An infix of `u` is an infix of `a ++ u ++ b`. -/
theorem isInfix_append_left_right {l u : List Char} (a b : List Char)
    (h : l <:+: u) : l <:+: a ++ u ++ b := by
  obtain ⟨s, t, hst⟩ := h
  exact ⟨a ++ s, t ++ b, by rw [← hst]; simp [List.append_assoc]⟩

/-- A member of a list of words is an infix of their space-join. -/
theorem isInfix_joinSpace : ∀ (l : List (List Char)) (d : List Char),
    d ∈ l → d <:+: joinSpace l := by
  intro l
  induction l with
  | nil =>
    intro d h
    cases h
  | cons x t ih =>
    intro d h
    rcases List.mem_cons.mp h with rfl | hm
    · cases t with
      | nil => exact ⟨[], [], by simp [joinSpace]⟩
      | cons y ys => exact ⟨[], str " " ++ joinSpace (y :: ys), by simp [joinSpace]⟩
    · cases t with
      | nil => cases hm
      | cons y ys =>
        obtain ⟨a, b, hab⟩ := ih d hm
        refine ⟨x ++ str " " ++ a, b, ?_⟩
        simp only [joinSpace]
        rw [← hab]
        simp [List.append_assoc]

/-! ## C3: BLAS-provider mutual exclusion -/

/-- C3: when catalog entries for several BLAS providers are present at
once, the `if get_software_root('IMKL') / elif get_software_root('ACML')
/ else` chain of `configure_step` selects exactly one provider fragment
in the fixed order IMKL over ACML over generic BLAS, and the dispatch
result is exactly the application of that single fragment — never two. -/
theorem blas_provider_mutually_exclusive (cat : Catalog) (env : Env)
    (openmp modincpath libsmmStr : List Char) (opts : Options) :
    (cat.imkl.isSome = true →
      blas_branch cat = .imklProv ∧
        apply_blas cat env openmp modincpath libsmmStr opts
          = configure_MKL cat env modincpath libsmmStr opts) ∧
    (cat.imkl = none → ∀ r, cat.acml = some r →
      blas_branch cat = .acmlProv ∧
        apply_blas cat env openmp modincpath libsmmStr opts
          = configure_ACML r env openmp libsmmStr opts) ∧
    (cat.imkl = none → cat.acml = none →
      blas_branch cat = .blasProv ∧
        apply_blas cat env openmp modincpath libsmmStr opts
          = configure_BLAS_lib env libsmmStr opts) := by
  refine ⟨?_, ?_, ?_⟩
  · intro h
    obtain ⟨r, hr⟩ := Option.isSome_iff_exists.mp h
    simp [blas_branch, apply_blas, hr]
  · intro h r hr
    simp [blas_branch, apply_blas, h, hr]
  · intro h hr
    simp [blas_branch, apply_blas, h, hr]

/-- Witness for C3 at a catalog containing both IMKL and ACML. -/
theorem blas_provider_mutually_exclusive_witness :
    blas_branch { emptyCatalog with
        imkl := some (str "/opt/imkl"), acml := some (str "/opt/acml") } = .imklProv ∧
      apply_blas { emptyCatalog with
          imkl := some (str "/opt/imkl"), acml := some (str "/opt/acml") }
          env0 [] [] [] {}
        = configure_MKL { emptyCatalog with
            imkl := some (str "/opt/imkl"), acml := some (str "/opt/acml") }
            env0 [] [] {} :=
  (blas_provider_mutually_exclusive { emptyCatalog with
      imkl := some (str "/opt/imkl"), acml := some (str "/opt/acml") }
    env0 [] [] [] {}).1 rfl

/-! ## C6: LibInt major-version cases -/

/-- C6: with LibInt present, the link-library list is decided by the
major version component: `"1"` yields exactly three static-archive
references, `"2"` exactly one, and any other major version makes the
LibInt block fatal with the unrecognized-version error. -/
theorem libint_major_version_decides (ver root ltp : List Char) (opts : Options) :
    (libint_libs_for (str "1")
        = .ok (str "$(LIBINTLIB)/libderiv.a $(LIBINTLIB)/libint.a $(LIBINTLIB)/libr12.a") ∧
      archiveRefCount (str "$(LIBINTLIB)/libderiv.a $(LIBINTLIB)/libint.a $(LIBINTLIB)/libr12.a") = 3) ∧
    (libint_libs_for (str "2") = .ok (str "$(LIBINTLIB)/libint2.a") ∧
      archiveRefCount (str "$(LIBINTLIB)/libint2.a") = 1) ∧
    (∀ mv, (splitOnChar '.' ver).headD [] = mv → mv ≠ str "1" → mv ≠ str "2" →
      configure_libint root ver true true true ltp opts
        = .error (str "Don\x27t know how to handle libint version " ++ mv)) := by
  refine ⟨⟨by rfl, by decide⟩, ⟨by rfl, by decide⟩, ?_⟩
  intro mv hmv h1 h2
  simp only [configure_libint, libint_libs_for]
  rw [hmv, if_neg h1, if_neg h2]
  simp

/-- Witness for C6 at the unrecognized major version "3". -/
theorem libint_major_version_decides_witness :
    configure_libint (str "/opt/libint") (str "3.0.1") true true true [] {}
      = .error (str "Don\x27t know how to handle libint version 3") :=
  (libint_major_version_decides (str "3.0.1") (str "/opt/libint") [] {}).2.2
    (str "3") (by decide) (by decide) (by decide)

/-! ## C7: libxc version gating -/

/-- C7: with libxc present, a version below the documented minimum
2.0.1 is fatal; a version at or above 2.2 yields the two-library link
fragment `-lxcf90 -lxc`; a version at or above the minimum but below 2.2
yields the one-library fragment `-lxc` (both after adding
`-D__LIBXC2`). -/
theorem libxc_version_gating (root vs : List Char) (opts : Options) :
    (verLt (looseVersion vs) (looseVersion (str "2.0.1")) = true →
      configure_libxc root vs opts
        = .error (str "CP2K only works with libxc v2.0.1 (or later)")) ∧
    (verLt (looseVersion vs) (looseVersion (str "2.2")) = false →
      configure_libxc root vs opts
        = .ok { opts with
            DFLAGS := opts.DFLAGS ++ str " -D__LIBXC2"
            LIBS := opts.LIBS ++ str " -L" ++ root ++ str "/lib -lxcf90 -lxc" }) ∧
    (verLt (looseVersion vs) (looseVersion (str "2.0.1")) = false →
      verLt (looseVersion vs) (looseVersion (str "2.2")) = true →
      configure_libxc root vs opts
        = .ok { opts with
            DFLAGS := opts.DFLAGS ++ str " -D__LIBXC2"
            LIBS := opts.LIBS ++ str " -L" ++ root ++ str "/lib -lxc" }) := by
  refine ⟨?_, ?_, ?_⟩
  · intro h
    simp [configure_libxc, h]
  · intro h
    have hmin : verLt (looseVersion vs) (looseVersion (str "2.0.1")) = false := by
      by_contra hc
      have hc' : verLt (looseVersion vs) (looseVersion (str "2.0.1")) = true := by
        revert hc
        cases verLt (looseVersion vs) (looseVersion (str "2.0.1")) <;> simp
      have : verLt (looseVersion vs) (looseVersion (str "2.2")) = true :=
        verLt_trans _ _ _ hc' (by decide)
      rw [this] at h
      cases h
    simp [configure_libxc, hmin, h]
  · intro hmin h22
    simp [configure_libxc, hmin, h22]

/-- Witness for C7 at versions 1.9 (fatal), 2.2 (two libraries) and
2.1 (one library). -/
theorem libxc_version_gating_witness :
    configure_libxc (str "/opt/libxc") (str "1.9") {}
        = .error (str "CP2K only works with libxc v2.0.1 (or later)") ∧
      configure_libxc (str "/opt/libxc") (str "2.2") {}
        = .ok { ({} : Options) with
            DFLAGS := str " -D__LIBXC2"
            LIBS := str " -L/opt/libxc/lib -lxcf90 -lxc" } ∧
      configure_libxc (str "/opt/libxc") (str "2.1") {}
        = .ok { ({} : Options) with
            DFLAGS := str " -D__LIBXC2"
            LIBS := str " -L/opt/libxc/lib -lxc" } := by
  refine ⟨?_, ?_, ?_⟩
  · exact (libxc_version_gating (str "/opt/libxc") (str "1.9") {}).1 (by decide)
  · have h := (libxc_version_gating (str "/opt/libxc") (str "2.2") {}).2.1 (by decide)
    rw [h]
    rfl
  · have h := (libxc_version_gating (str "/opt/libxc") (str "2.1") {}).2.2
      (by decide) (by decide)
    rw [h]
    rfl

/-! ## C4: Intel compiler-version gating -/

/-- C4: the Intel gate accepts versions in [2011, 2012) only from
sub-version 2011.8 (two per-source-file compile-rule overrides are then
injected), accepts versions ≥ 11 and < 2011 only from sub-version
11.1.072 (one override), is fatal below those sub-versions and fatal
unconditionally below version 11; the overrides force the named source
files to build with `$(FCFLAGS2)` (the lower optimization flag set), and
whatever the gate returns is appended verbatim at the end of the
serialized Makefile. -/
theorem intel_gate_version_gating (vs : List Char) :
    ((verLt (looseVersion vs) (looseVersion (str "2011")) = false ∧
        verLt (looseVersion vs) (looseVersion (str "2012")) = true) →
      ((verLt (looseVersion vs) (looseVersion (str "2011.8")) = false →
          intel_gate vs = .ok (etCouplingRule ++ qsVxcAtomRule)) ∧
        (verLt (looseVersion vs) (looseVersion (str "2011.8")) = true →
          intel_gate vs = .error (intelFailMsg (str "v12") (str "v2011.8"))))) ∧
    ((verLt (looseVersion vs) (looseVersion (str "11")) = false ∧
        verLt (looseVersion vs) (looseVersion (str "2011")) = true) →
      ((verLt (looseVersion vs) (looseVersion (str "11.1.072")) = false →
          intel_gate vs = .ok qsVxcAtomRule) ∧
        (verLt (looseVersion vs) (looseVersion (str "11.1.072")) = true →
          intel_gate vs = .error (intelFailMsg (str "v11") (str "v11.1.072"))))) ∧
    (verLt (looseVersion vs) (looseVersion (str "11")) = true →
      intel_gate vs
        = .error (str "Intel compilers version " ++ vs ++ str " not supported yet.")) ∧
    (containsPat (str "$(FCFLAGS2)") etCouplingRule = true ∧
      containsPat (str "$(FCFLAGS2)") qsVxcAtomRule = true) ∧
    (∀ instrs ents, intel_gate vs = .ok instrs →
      instrs <:+ generate_makefile ents instrs) := by
  refine ⟨?_, ?_, ?_, ⟨by decide, by decide⟩, ?_⟩
  · rintro ⟨h1, h2⟩
    constructor
    · intro h3
      simp [intel_gate, h1, h2, h3]
    · intro h3
      simp [intel_gate, h1, h2, h3]
  · rintro ⟨h1, h2⟩
    constructor
    · intro h3
      simp [intel_gate, h1, h2, h3]
    · intro h3
      simp [intel_gate, h1, h2, h3]
  · intro h
    have h2011 : verLt (looseVersion vs) (looseVersion (str "2011")) = true :=
      verLt_trans _ _ _ h (by decide)
    simp [intel_gate, h, h2011]
  · intro instrs ents _
    exact List.suffix_append _ instrs

/-- Witness for C4 at versions 2011.8 (two overrides), 2011.7 (fatal),
11.1.072 (one override) and 10.1 (fatal). -/
theorem intel_gate_version_gating_witness :
    intel_gate (str "2011.8") = .ok (etCouplingRule ++ qsVxcAtomRule) ∧
      intel_gate (str "2011.7") = .error (intelFailMsg (str "v12") (str "v2011.8")) ∧
      intel_gate (str "11.1.072") = .ok qsVxcAtomRule ∧
      intel_gate (str "10.1")
        = .error (str "Intel compilers version 10.1 not supported yet.") :=
  ⟨((intel_gate_version_gating (str "2011.8")).1 (by decide)).1 (by decide),
   ((intel_gate_version_gating (str "2011.7")).1 (by decide)).2 (by decide),
   ((intel_gate_version_gating (str "11.1.072")).2.1 (by decide)).1 (by decide),
   (intel_gate_version_gating (str "10.1")).2.2.1 (by decide)⟩

/-! ## C8: MPI-incapable toolchains are always fatal -/

/-- C8: whenever the MPI implementation is recognized neither via the
toolchain-declared MPI family (the family, if declared, is not among the
recognized MPI-2 families) nor via the fallback catalog scan (none of the
known MPI-2 library roots is present), `configure_step` fails fatally
with the MPI-2 error — for both supported compiler families and both
build variants.  (`modinc` is off, so the modinc preparation step cannot
fail first.) -/
theorem mpi_incapable_always_fatal (w : World)
    (hfam : w.tc.compFamily = INTELCOMP ∨ w.tc.compFamily = GCCFam)
    (htype : w.cfg.buildType = str "popt" ∨ w.cfg.buildType = str "psmp")
    (hmodinc : w.cfg.modinc = false)
    (hdecl : ∀ f, w.tc.mpiFamily = some f → mpi2Fams.contains f = false)
    (hscan : w.cat.impi = none ∧ w.cat.mvapich2 = none ∧ w.cat.openmpi = none ∧
      w.cat.mpich2 = none ∧ w.cat.mpich = none) :
    configure_step w
      = .error (str "CP2K needs MPI-2, no known MPI-2 supporting library loaded?") := by
  have hmpi : mpi2Detected w.tc w.cat = false := by
    obtain ⟨h1, h2, h3, h4, h5⟩ := hscan
    cases hfm : w.tc.mpiFamily with
    | none => simp [mpi2Detected, hfm, h1, h2, h3, h4, h5]
    | some f => simpa [mpi2Detected, hfm] using hdecl f hfm
  have hcond : ¬¬(w.cfg.buildType = str "popt" ∨ w.cfg.buildType = str "psmp") :=
    not_not_intro htype
  rcases hfam with hf | hf
  · simp [configure_step, hcond, hmodinc, hf, configure_intel_based,
      configure_common, hmpi]
  · have hne : ¬(GCCFam = INTELCOMP) := by decide
    simp [configure_step, hcond, hmodinc, hf, hne, configure_GCC_based,
      configure_common, hmpi]

/-- A toolchain whose declared MPI family is unrecognized ("LAM"). -/
def tcNoMpi : Toolchain :=
  { flags := { debug := false, pic := false, optarch := false }
    name := str "gompi", compFamily := str "GCC"
    mpiFamily := some (str "LAM"), openmpFlag := str "-fopenmp" }

/-- A minimal valid build configuration. -/
def cfg0 : BuildCfg :=
  { buildType := str "popt", typeopt := true, modinc := false
    extracflags := [], extradflags := [] }

/-- Witness for C8: a GCC/popt world with unrecognized MPI family and no
MPI-2 library in the catalog. -/
theorem mpi_incapable_always_fatal_witness :
    configure_step { tc := tcNoMpi, cfg := cfg0, env := env0, cat := emptyCatalog }
      = .error (str "CP2K needs MPI-2, no known MPI-2 supporting library loaded?") :=
  mpi_incapable_always_fatal _ (Or.inr rfl) (Or.inl rfl) rfl
    (by
      intro f h
      cases h
      decide)
    ⟨rfl, rfl, rfl, rfl, rfl⟩

/-! ## C10: libsmm is appended in every BLAS-provider branch -/

/-- C10: when a libsmm installation is detected, `configure_step` stores
the space-joined archive list in `self.libsmm` and every BLAS-provider
fragment — MKL, ACML and the generic BLAS one alike — appends it to the
`LIBS` directive; moreover each per-detected-variant `-D__HAS_…` define
is appended to `extradflags` before any provider is chosen, and hence
lands in the `DFLAGS` directive built by `configure_common` in all
cases. -/
theorem libsmm_applied_in_all_branches (cat : Catalog) (cfg : BuildCfg) (env : Env)
    (openmp mp fpic debug optflags regflags : List Char) (opts : Options) (r : List Char)
    (hr : cat.libsmm = some r) :
    ((libsmm_stage cat cfg.extradflags).2 = joinSpace cat.libsmmFiles) ∧
      ((libsmm_stage cat cfg.extradflags).2
        <:+: (configure_MKL cat env mp (libsmm_stage cat cfg.extradflags).2 opts).LIBS) ∧
      ((libsmm_stage cat cfg.extradflags).2
        <:+: (configure_ACML r env openmp (libsmm_stage cat cfg.extradflags).2 opts).LIBS) ∧
      ((libsmm_stage cat cfg.extradflags).2
        <:+: (configure_BLAS_lib env (libsmm_stage cat cfg.extradflags).2 opts).LIBS) ∧
      (∀ d ∈ cat.libsmmFiles.map libsmmDefine,
        d <:+: (libsmm_stage cat cfg.extradflags).1 ∧
          d <:+: (common_options_base
              { cfg with extradflags := (libsmm_stage cat cfg.extradflags).1 }
              env openmp fpic debug optflags regflags).DFLAGS) := by
  have hstage : libsmm_stage cat cfg.extradflags
      = (cfgUpdate cfg.extradflags
          (str " " ++ joinSpace (cat.libsmmFiles.map libsmmDefine)),
         joinSpace cat.libsmmFiles) := by
    simp [libsmm_stage, hr]
  refine ⟨by rw [hstage], ?_, ?_, ?_, ?_⟩
  · rcases hfw : cat.fftw with _ | f
    · have hL : (configure_MKL cat env mp (libsmm_stage cat cfg.extradflags).2 opts).LIBS
          = env.LIBFFT ++ str " "
            ++ (opts.LIBS ++ str " " ++ (libsmm_stage cat cfg.extradflags).2 ++ str " "
                ++ env.LIBSCALAPACK) := by
        simp [configure_MKL, hfw]
      rw [hL]
      exact ⟨env.LIBFFT ++ str " " ++ (opts.LIBS ++ str " "),
        str " " ++ env.LIBSCALAPACK, by simp [List.append_assoc]⟩
    · have hL : (configure_MKL cat env mp (libsmm_stage cat cfg.extradflags).2 opts).LIBS
          = opts.LIBS ++ str " " ++ (libsmm_stage cat cfg.extradflags).2 ++ str " "
            ++ env.LIBSCALAPACK := by
        simp [configure_MKL, hfw]
      rw [hL]
      exact ⟨opts.LIBS ++ str " ", str " " ++ env.LIBSCALAPACK,
        by simp [List.append_assoc]⟩
  · have hL : (configure_ACML r env openmp (libsmm_stage cat cfg.extradflags).2 opts).LIBS
        = opts.LIBS ++ str " " ++ (libsmm_stage cat cfg.extradflags).2 ++ str " "
          ++ env.LIBSCALAPACK ++ str " "
          ++ pyReplace (str "gfortran64")
              (str "gfortran64" ++ (if openmp ≠ [] then str "_mp" else []))
              env.LIBBLAS := by
      simp [configure_ACML]
    rw [hL]
    exact ⟨opts.LIBS ++ str " ",
      str " " ++ env.LIBSCALAPACK ++ str " "
        ++ pyReplace (str "gfortran64")
            (str "gfortran64" ++ (if openmp ≠ [] then str "_mp" else []))
            env.LIBBLAS,
      by simp [List.append_assoc]⟩
  · have hL : (configure_BLAS_lib env (libsmm_stage cat cfg.extradflags).2 opts).LIBS
        = opts.LIBS ++ str " " ++ (libsmm_stage cat cfg.extradflags).2 ++ str " "
          ++ env.LIBBLAS := by
      simp [configure_BLAS_lib]
    rw [hL]
    exact ⟨opts.LIBS ++ str " ", str " " ++ env.LIBBLAS, by simp [List.append_assoc]⟩
  · intro d hd
    have hjoin : d <:+: joinSpace (cat.libsmmFiles.map libsmmDefine) :=
      isInfix_joinSpace _ d hd
    obtain ⟨a, b, hab⟩ := hjoin
    have hstage1 : (libsmm_stage cat cfg.extradflags).1
        = cfg.extradflags ++ str " "
          ++ (str " " ++ joinSpace (cat.libsmmFiles.map libsmmDefine)) ++ str " " := by
      rw [hstage]
      rfl
    constructor
    · refine ⟨cfg.extradflags ++ str " " ++ str " " ++ a, b ++ str " ", ?_⟩
      rw [hstage1, ← hab]
      simp [List.append_assoc]
    · have hD : (common_options_base
          { cfg with extradflags := (libsmm_stage cat cfg.extradflags).1 }
          env openmp fpic debug optflags regflags).DFLAGS
          = str " -D__parallel -D__BLACS -D__SCALAPACK -D__FFTSG "
            ++ (libsmm_stage cat cfg.extradflags).1 := by
        simp [common_options_base]
      rw [hD, hstage1, ← hab]
      refine ⟨str " -D__parallel -D__BLACS -D__SCALAPACK -D__FFTSG "
        ++ (cfg.extradflags ++ str " " ++ str " ") ++ a, b ++ str " ", ?_⟩
      simp [List.append_assoc]

/-- A catalog with a detected libsmm installation and two globbed
archive files. -/
def catSmm : Catalog :=
  { emptyCatalog with
      libsmm := some (str "/opt/libsmm")
      libsmmFiles := [str "/opt/libsmm/lib/libsmm_dnn.a", str "/opt/libsmm/lib/libsmm_snn.a"] }

/-- Witness for C10 at a concrete two-archive libsmm catalog. -/
theorem libsmm_applied_in_all_branches_witness :
    (libsmm_stage catSmm cfg0.extradflags).2 = joinSpace catSmm.libsmmFiles ∧
      ((libsmm_stage catSmm cfg0.extradflags).2
        <:+: (configure_BLAS_lib env0 (libsmm_stage catSmm cfg0.extradflags).2 {}).LIBS) ∧
      (str "-D__HAS_smm_dnn" <:+: (libsmm_stage catSmm cfg0.extradflags).1) :=
  ⟨(libsmm_applied_in_all_branches catSmm cfg0 env0 [] [] [] [] [] [] {}
      (str "/opt/libsmm") rfl).1,
   (libsmm_applied_in_all_branches catSmm cfg0 env0 [] [] [] [] [] [] {}
      (str "/opt/libsmm") rfl).2.2.2.1,
   ((libsmm_applied_in_all_branches catSmm cfg0 env0 [] [] [] [] [] [] {}
      (str "/opt/libsmm") rfl).2.2.2.2 (str "-D__HAS_smm_dnn") (by decide)).1⟩

end CP2K
